import Mathlib

set_option maxRecDepth 40000

/-!
Verification of the URL shortener service (src/main.py).

The service is embedded shallowly: the SQLite relations `URLs` and
`AccessLogs` become lists of records inside a `Store`, each FastAPI
endpoint becomes a pure function `Store → ... → Response × Store`
(the returned store is the database after the request), timestamps are
integers, and `hashlib.sha256` is implemented bit-faithfully on byte
lists with `Nat` arithmetic modulo 2^32.
-/

namespace SHA256

/-- Truncate a natural number to 32 bits, mirroring fixed-width words. -/
def w32 (n : Nat) : Nat := n % 4294967296

/-- Right rotation of a 32-bit word by `n` bits. -/
def rotr (n x : Nat) : Nat := w32 ((x >>> n) ||| (x <<< (32 - n)))

/-- The 64 round constants of FIPS 180-4, written in decimal. -/
def K : List Nat :=
  [1116352408, 1899447441, 3049323471, 3921009573, 961987163, 1508970993,
   2453635748, 2870763221, 3624381080, 310598401, 607225278, 1426881987,
   1925078388, 2162078206, 2614888103, 3248222580, 3835390401, 4022224774,
   264347078, 604807628, 770255983, 1249150122, 1555081692, 1996064986,
   2554220882, 2821834349, 2952996808, 3210313671, 3336571891, 3584528711,
   113926993, 338241895, 666307205, 773529912, 1294757372, 1396182291,
   1695183700, 1986661051, 2177026350, 2456956037, 2730485921, 2820302411,
   3259730800, 3345764771, 3516065817, 3600352804, 4094571909, 275423344,
   430227734, 506948616, 659060556, 883997877, 958139571, 1322822218,
   1537002063, 1747873779, 1955562222, 2024104815, 2227730452, 2361852424,
   2428436474, 2756734187, 3204031479, 3329325298]

/-- Hash state: the eight 32-bit working words. -/
abbrev St := Nat × Nat × Nat × Nat × Nat × Nat × Nat × Nat

/-- Initial hash value of FIPS 180-4, written in decimal. -/
def initSt : St :=
  (1779033703, 3144134277, 1013904242, 2773480762,
   1359893119, 2600822924, 528734635, 1541459225)

/-- UTF-8 encoding of one code point, as Python `str.encode` produces. -/
def utf8Encode (c : Nat) : List Nat :=
  if c < 0x80 then [c]
  else if c < 0x800 then
    [0xC0 ||| (c >>> 6), 0x80 ||| (c &&& 0x3F)]
  else if c < 0x10000 then
    [0xE0 ||| (c >>> 12), 0x80 ||| ((c >>> 6) &&& 0x3F), 0x80 ||| (c &&& 0x3F)]
  else
    [0xF0 ||| (c >>> 18), 0x80 ||| ((c >>> 12) &&& 0x3F), 0x80 ||| ((c >>> 6) &&& 0x3F),
     0x80 ||| (c &&& 0x3F)]

/-- Byte sequence of a string, as in Python `s.encode()`. -/
def strToBytes (s : String) : List Nat :=
  (s.data.map (fun c => utf8Encode c.toNat)).flatten

/-- Big-endian 8-byte encoding of the bit length. -/
def lenBytes (n : Nat) : List Nat :=
  (List.range 8).map (fun i => (n >>> (8 * (7 - i))) % 256)

/-- FIPS 180-4 padding: append 0x80, zeros to 56 mod 64, then the bit length. -/
def padMessage (msg : List Nat) : List Nat :=
  let L := msg.length
  let z := (119 - L % 64) % 64
  msg ++ [0x80] ++ List.replicate z 0 ++ lenBytes (8 * L)

/-- Split into chunks of `n`, structurally recursive on a fuel bound. -/
def chunksAux (n : Nat) : Nat → List Nat → List (List Nat)
  | 0, _ => []
  | _, [] => []
  | fuel + 1, l => l.take n :: chunksAux n fuel (l.drop n)

/-- The 64-byte blocks of a padded message. -/
def blocks (l : List Nat) : List (List Nat) := chunksAux 64 l.length l

/-- Big-endian word from up to four bytes. -/
def beWord (bs : List Nat) : Nat := bs.foldl (fun a b => a * 256 + b) 0

/-- The sixteen 32-bit words of one block. -/
def toWords (l : List Nat) : List Nat :=
  (chunksAux 4 l.length l).map beWord

/-- Lowercase sigma-0 of the message schedule. -/
def ssig0 (x : Nat) : Nat := (rotr 7 x) ^^^ (rotr 18 x) ^^^ (x >>> 3)

/-- Lowercase sigma-1 of the message schedule. -/
def ssig1 (x : Nat) : Nat := (rotr 17 x) ^^^ (rotr 19 x) ^^^ (x >>> 10)

/-- Uppercase Sigma-0 of the compression function. -/
def bsig0 (x : Nat) : Nat := (rotr 2 x) ^^^ (rotr 13 x) ^^^ (rotr 22 x)

/-- Uppercase Sigma-1 of the compression function. -/
def bsig1 (x : Nat) : Nat := (rotr 6 x) ^^^ (rotr 11 x) ^^^ (rotr 25 x)

/-- Extend sixteen words to the 64-entry message schedule. -/
def schedule (w16 : List Nat) : Array Nat :=
  (List.range 48).foldl
    (fun a i =>
      a.push (w32 (ssig1 (a.getD (i + 14) 0) + a.getD (i + 9) 0 +
                   ssig0 (a.getD (i + 1) 0) + a.getD i 0)))
    w16.toArray

/-- One round of the SHA-256 compression function. -/
def round (st : St) (k w : Nat) : St :=
  let (a, b, c, d, e, f, g, h) := st
  let ch := (e &&& f) ^^^ ((e ^^^ 0xFFFFFFFF) &&& g)
  let maj := (a &&& b) ^^^ (a &&& c) ^^^ (b &&& c)
  let t1 := w32 (h + bsig1 e + ch + k + w)
  let t2 := w32 (bsig0 a + maj)
  (w32 (t1 + t2), a, b, c, w32 (d + t1), e, f, g)

/-- Componentwise 32-bit addition of two hash states. -/
def add8 (x y : St) : St :=
  let (a, b, c, d, e, f, g, h) := x
  let (a2, b2, c2, d2, e2, f2, g2, h2) := y
  (w32 (a + a2), w32 (b + b2), w32 (c + c2), w32 (d + d2),
   w32 (e + e2), w32 (f + f2), w32 (g + g2), w32 (h + h2))

/-- Process one 64-byte block. -/
def compressBlock (st : St) (block : List Nat) : St :=
  let ws := schedule (toWords block)
  add8 st ((List.range 64).foldl (fun s i => round s (K.getD i 0) (ws.getD i 0)) st)

/-- SHA-256 of a byte sequence, as the eight final hash words. -/
def sha256Words (msg : List Nat) : St :=
  (blocks (padMessage msg)).foldl compressBlock initSt

/-- Lowercase hexadecimal digit for a value below sixteen. -/
def hexChar (n : Nat) : Char :=
  if n < 10 then Char.ofNat (48 + n) else Char.ofNat (87 + n)

/-- Eight-character big-endian lowercase hex rendering of one word. -/
def wordHex (w : Nat) : List Char :=
  (List.range 8).map (fun i => hexChar ((w >>> (4 * (7 - i))) % 16))

/-- The 64 characters of the hex digest. -/
def digestChars (st : St) : List Char :=
  let (a, b, c, d, e, f, g, h) := st
  wordHex a ++ wordHex b ++ wordHex c ++ wordHex d ++
  wordHex e ++ wordHex f ++ wordHex g ++ wordHex h

/-- Hex digest character list of a string, as `sha256(s.encode()).hexdigest()`. -/
def hexdigestChars (s : String) : List Char :=
  digestChars (sha256Words (strToBytes s))

/-- Hex digest of a string as a string. -/
def hexdigest (s : String) : String := String.mk (hexdigestChars s)

end SHA256

/-- Embedding of `generate_short_url` (src/main.py line 60): the first eight
characters of the SHA-256 hex digest of the URL string. -/
def generate_short_url (original_url : String) : String :=
  String.mk ((SHA256.hexdigest original_url).data.take 8)

/-- Timestamps, as an abstract totally ordered clock (the code compares
`datetime` values and stores them; only their order matters here). -/
abbrev Time := Int

/-- Row of the `URLs` relation (src/main.py lines 25-32).  `password` is the
stored password hash column, `NULL` (`none`) when the link is unprotected. -/
structure Link where
  original_url : String
  short_url : String
  created_at : Time
  expires_at : Time
  password : Option String
deriving Repr, DecidableEq

/-- Row of the `AccessLogs` relation (src/main.py lines 33-39). -/
structure AccessLog where
  short_url : String
  accessed_at : Time
  ip_address : String
deriving Repr, DecidableEq

/-- The database: both relations, rows in insertion order (SQLite returns
them in rowid order, which is insertion order for these append-only tables). -/
structure Store where
  urls : List Link
  accessLogs : List AccessLog
deriving Repr, DecidableEq

/-- Request body of `POST /shorten` (src/main.py lines 46-49).  The pydantic
default of 24 for `expiry_hours` is the structure default; `original_url`
is kept as the already validated, normalized URL string. -/
structure URLRequest where
  original_url : String
  expiry_hours : Int := 24
  password : Option String := none
deriving Repr, DecidableEq

/-- The analytics payload both analytics endpoints render (src/main.py
lines 200-207 and 267-274). -/
structure AnalyticsData where
  short_url : String
  original_url : String
  created_at : Time
  expires_at : Time
  access_count : Nat
  access_logs : List (Time × String)
deriving Repr, DecidableEq

/-- Responses of the endpoints.  HTML pages are abstracted to constructors
carrying exactly the dynamic data interpolated into the page: the password
prompt pages mention only the short code (their form action), the redirect
page mentions the original URL, the analytics pages render `AnalyticsData`.
`error s d` is `HTTPException(status_code=s, detail=d)`. -/
inductive Response where
  | redirect (url : String)
  | challengePage (short_url : String)
  | analyticsChallengePage (short_url : String)
  | redirectPage (url : String)
  | report (data : AnalyticsData)
  | error (status : Nat) (detail : String)
deriving Repr, DecidableEq

/-- Python truthiness of an optional string: `None` and the empty string are
falsy (`if url_entry["password"]:`, `if not x_password:`). -/
def truthy (o : Option String) : Bool := o.getD "" ≠ ""

/-- Model of `werkzeug.security.generate_password_hash`, which is external to
this repository: a salted one-way hash, abstracted to a deterministic tagged
encoding so that `check_password_hash` recognises exactly the hashed password.
No claim depends on the hash being non-invertible; what matters is which
comparisons succeed. -/
def generate_password_hash (p : String) : String := "pbkdf2$" ++ p

/-- Model of `werkzeug.security.check_password_hash(pwhash, password)` on a
present string hash: it verifies exactly the password the hash was generated
from.  werkzeug requires `pwhash` to be a string; when the handlers pass the
`NULL` `password` column (`None`), the call raises `AttributeError` before
any comparison — that exception path is modelled at the call sites, not
here. -/
def check_password_hash (pwhash supplied : String) : Bool :=
  pwhash == generate_password_hash supplied

/-- The query `SELECT * FROM URLs WHERE short_url = ?` followed by
`fetchone()`: the first matching row, if any. -/
def findLink (s : Store) (code : String) : Option Link :=
  s.urls.find? (fun l => l.short_url == code)

/-- The query `SELECT accessed_at, ip_address FROM AccessLogs WHERE
short_url = ?` followed by `fetchall()`: all matching rows in insertion
order. -/
def logsFor (s : Store) (code : String) : List AccessLog :=
  s.accessLogs.filter (fun l => l.short_url == code)

/-- The analytics dictionary built identically at src/main.py lines 200-207
and 267-274 from a URLs row and the fetched logs. -/
def analyticsFor (s : Store) (url_entry : Link) (short_url client_host : String) :
    AnalyticsData :=
  let logs := logsFor s short_url
  { short_url := "http://" ++ client_host ++ ":8000/" ++ short_url
    original_url := url_entry.original_url
    created_at := url_entry.created_at
    expires_at := url_entry.expires_at
    access_count := logs.length
    access_logs := logs.map (fun l => (l.accessed_at, l.ip_address)) }

/-- Embedding of `shorten_url` (`POST /shorten`, src/main.py lines 71-93).
The code calls `datetime.now()` twice (for `expires_at` and `created_at`);
both calls are modelled by the single request time `now`.  A password is
hashed only when truthy.  The `INSERT` raises `sqlite3.IntegrityError`
exactly when the `UNIQUE` constraint on `short_url` is violated, and the
handler swallows it, so the insert happens iff no row with that short code
exists.  Returns the host-qualified short URL and the new store. -/
def shorten_url (s : Store) (now : Time) (req : URLRequest) (client_host : String) :
    String × Store :=
  let original_url := req.original_url
  let short_url := generate_short_url original_url
  let expires_at := now + req.expiry_hours * 3600
  let hashed_password := if truthy req.password
    then some (generate_password_hash (req.password.getD "")) else none
  let s2 := if s.urls.any (fun l => l.short_url == short_url) then s
    else { s with urls := s.urls ++
      [{ original_url := original_url, short_url := short_url,
         created_at := now, expires_at := expires_at, password := hashed_password }] }
  ("http://" ++ client_host ++ ":8000/" ++ short_url, s2)

/-- Embedding of `redirect_to_url` (`GET /{short_url}`, src/main.py lines
95-136): 404 if the code is unknown, 410 if `expires_at < now`, the password
prompt page (no log, no original URL) if the row has a truthy password,
otherwise append one access log row with the caller host and redirect. -/
def redirect_to_url (s : Store) (now : Time) (short_url client_host : String) :
    Response × Store :=
  match findLink s short_url with
  | none => (.error 404 "Short URL not found.", s)
  | some url_entry =>
    if url_entry.expires_at < now then
      (.error 410 "Short URL has expired.", s)
    else if truthy url_entry.password then
      (.challengePage short_url, s)
    else
      (.redirect url_entry.original_url,
       { s with accessLogs := s.accessLogs ++
         [{ short_url := short_url, accessed_at := now, ip_address := client_host }] })

/-- Embedding of `validate_password` (`POST /{short_url}/validate`,
src/main.py lines 138-179): 404 if the code is unknown.  Line 150 passes
`url_entry["password"]` straight into `check_password_hash`; when that
column is `NULL` (link not password-protected), werkzeug raises
`AttributeError` on `None`, the exception propagates uncaught and FastAPI
answers HTTP 500 — no write has happened, so the store is unchanged.  With
a stored hash present: 403 if it does not verify the submitted password,
otherwise append one access log row with the fixed sentinel
`"Validated Access"` as IP address and return the auto-redirect page
carrying the original URL.  (The insert at lines 155-158 sits outside the
`with` block but still runs before the response, on the still-open
connection, only when no exception was raised.) -/
def validate_password (s : Store) (now : Time) (short_url password : String) :
    Response × Store :=
  match findLink s short_url with
  | none => (.error 404 "Short URL not found.", s)
  | some url_entry =>
    match url_entry.password with
    | none => (.error 500 "Internal Server Error", s)
    | some stored =>
      if ¬ check_password_hash stored password then
        (.error 403 "Password is incorrect.", s)
      else
        (.redirectPage url_entry.original_url,
         { s with accessLogs := s.accessLogs ++
           [{ short_url := short_url, accessed_at := now, ip_address := "Validated Access" }] })

/-- Embedding of `validate_analytics_password`
(`POST /analytics/{short_url}/validate`, src/main.py lines 181-229): 404 if
the code is unknown.  Line 193 has the same flaw as line 150: a `NULL`
stored password reaches werkzeug, raises `AttributeError`, and surfaces as
an uncaught HTTP 500 with the store unchanged.  With a stored hash present:
403 if it does not verify the submitted password, otherwise render the
analytics page.  The function performs no `INSERT`: it never appends an
access log row. -/
def validate_analytics_password (s : Store) (short_url password client_host : String) :
    Response × Store :=
  match findLink s short_url with
  | none => (.error 404 "Short URL not found.", s)
  | some url_entry =>
    match url_entry.password with
    | none => (.error 500 "Internal Server Error", s)
    | some stored =>
      if ¬ check_password_hash stored password then
        (.error 403 "Password is incorrect.", s)
      else
        (.report (analyticsFor s url_entry short_url client_host), s)

/-- Embedding of `get_analytics` (`GET /analytics/{short_url}`, src/main.py
lines 231-296): 404 if the code is unknown; if the row has a truthy password
then a falsy `X-Password` header yields the analytics password prompt page
and a non-verifying one yields 403; otherwise render the analytics page.
The `check_password_hash` call at line 260 is guarded by the truthiness
test, so the stored hash there is always a present nonempty string (read
here with `getD`, whose default is never taken on that branch).  The
function performs no `INSERT`. -/
def get_analytics (s : Store) (short_url : String) (x_password : Option String)
    (client_host : String) : Response × Store :=
  match findLink s short_url with
  | none => (.error 404 "Short URL not found.", s)
  | some url_entry =>
    if truthy url_entry.password then
      if ¬ truthy x_password then
        (.analyticsChallengePage short_url, s)
      else if ¬ check_password_hash (url_entry.password.getD "") (x_password.getD "") then
        (.error 403 "Password is incorrect.", s)
      else
        (.report (analyticsFor s url_entry short_url client_host), s)
    else
      (.report (analyticsFor s url_entry short_url client_host), s)

/-- Validation of the SHA-256 embedding against the FIPS 180-4 test vector. -/
theorem sha256_test_vector_abc : SHA256.hexdigest "abc" =
    "ba7816bf8f01cfea414140de5dae2223b00361a396177a9cb410ff61f20015ad" := by decide

/-- Validation of the SHA-256 embedding on the empty message. -/
theorem sha256_test_vector_empty : SHA256.hexdigest "" =
    "e3b0c44298fc1c149afbf4c8996fb92427ae41e4649b934ca495991b7852b855" := by decide

/-- The short code the service computes for the example URL of the spec. -/
theorem short_code_example : generate_short_url "http://example.com/" = "2a1b4024" := by decide

/-- A password-protected link fixture. -/
def linkP : Link :=
  { original_url := "http://a.com/", short_url := "cp", created_at := 0,
    expires_at := 100, password := some (generate_password_hash "secret") }

/-- A store holding only the protected link. -/
def storeP : Store := { urls := [linkP], accessLogs := [] }

/-- An unprotected link fixture whose expiry equals the boundary instant 0. -/
def linkB : Link :=
  { original_url := "http://b.com/", short_url := "cb", created_at := -10,
    expires_at := 0, password := none }

/-- A store holding only the boundary link. -/
def storeB : Store := { urls := [linkB], accessLogs := [] }

/-- A password-protected link fixture that is already expired. -/
def linkX : Link :=
  { original_url := "http://e.com/", short_url := "cx", created_at := -100,
    expires_at := -50, password := some (generate_password_hash "secret") }

/-- A store holding only the expired protected link. -/
def storeX : Store := { urls := [linkX], accessLogs := [] }

/-- A verified password pins down the stored hash. -/
lemma check_true_password_eq {h p : String}
    (hc : check_password_hash h p = true) : h = generate_password_hash p := by
  simpa only [check_password_hash, beq_iff_eq] using hc

/-- The generated hash of a password verifies it. -/
lemma check_generate_password_hash (p : String) :
    check_password_hash (generate_password_hash p) p = true := by
  simp [check_password_hash]

/-- Generated password hashes are nonempty strings. -/
lemma generate_password_hash_ne_empty (p : String) : generate_password_hash p ≠ "" := by
  intro h
  have h2 := congrArg (fun s => s.data.length) h
  simp [generate_password_hash, String.append] at h2

/-- A stored generated hash is truthy. -/
lemma truthy_generate_password_hash (p : String) :
    truthy (some (generate_password_hash p)) = true := by
  simp [truthy, generate_password_hash_ne_empty]

/-- A supplied nonempty header value is truthy. -/
lemma truthy_some_ne {p : String} (hp : p ≠ "") : truthy (some p) = true := by
  simp [truthy, hp]

/-- Lowercase hexadecimal digit characters: a decimal digit or one of the
letters a to f. -/
def isHexChar (c : Char) : Bool := c.isDigit || ('a' ≤ c && c ≤ 'f')

/-- Every hexadecimal digit character below sixteen is a hex digit. -/
lemma hexChar_isHexChar : ∀ n < 16, isHexChar (SHA256.hexChar n) = true := by decide

/-- Every character of a word rendering is a hex digit. -/
lemma mem_wordHex_isHexChar {c : Char} {w : Nat} (h : c ∈ SHA256.wordHex w) :
    isHexChar c = true := by
  simp only [SHA256.wordHex, List.mem_map, List.mem_range] at h
  obtain ⟨i, _, rfl⟩ := h
  exact hexChar_isHexChar _ (Nat.mod_lt _ (by norm_num))

/-- Every character of a digest rendering is a hex digit. -/
lemma mem_digestChars_isHexChar {c : Char} {st : SHA256.St}
    (hm : c ∈ SHA256.digestChars st) : isHexChar c = true := by
  obtain ⟨a, b, d, e, f, g, h1, h2⟩ := st
  simp only [SHA256.digestChars, List.mem_append] at hm
  rcases hm with ((((((h | h) | h) | h) | h) | h) | h) | h <;>
    exact mem_wordHex_isHexChar h

/-- A digest rendering always has 64 characters. -/
lemma digestChars_length (st : SHA256.St) : (SHA256.digestChars st).length = 64 := by
  obtain ⟨a, b, d, e, f, g, h1, h2⟩ := st
  simp [SHA256.digestChars, SHA256.wordHex]

/-- C9: `generate_short_url` is a pure function equal to the first eight
characters of the SHA-256 hex digest of the URL string; its output always
has exactly eight characters, all lowercase hexadecimal digits, and equal
inputs give equal codes. -/
theorem generate_short_url_spec (u : String) :
    generate_short_url u = String.mk ((SHA256.hexdigest u).data.take 8) ∧
    (generate_short_url u).length = 8 ∧
    ∀ c ∈ (generate_short_url u).data, isHexChar c = true := by
  refine ⟨rfl, ?_, ?_⟩
  · show (String.mk ((SHA256.hexdigest u).data.take 8)).length = 8
    simp [String.length, SHA256.hexdigest, SHA256.hexdigestChars, digestChars_length]
  · intro c hc
    have hc2 : c ∈ (SHA256.hexdigest u).data := List.take_subset 8 _ hc
    exact mem_digestChars_isHexChar hc2

/-- C9 witness: the code of the example URL evaluates concretely and has
eight characters. -/
theorem generate_short_url_spec_witness :
    generate_short_url "http://example.com/" = "2a1b4024" ∧
    (generate_short_url "http://example.com/").length = 8 :=
  ⟨by decide, (generate_short_url_spec "http://example.com/").2.1⟩

/-- C8: header-based analytics retrieval is side-effect-free: for every
store, code, optional header credential and caller host, `get_analytics`
returns the store unchanged, so neither the URLs relation nor the
AccessLogs relation is modified and no access log entry is appended. -/
theorem get_analytics_side_effect_free (s : Store) (short_url : String)
    (x_password : Option String) (client_host : String) :
    (get_analytics s short_url x_password client_host).2 = s := by
  unfold get_analytics
  split
  · rfl
  · split_ifs <;> rfl

/-- C7: resolving a password-protected, non-expired link yields the password
challenge page and leaves the store (hence the access log) unchanged; the
response carries only the short code, not the original URL. -/
theorem redirect_protected_challenge (s : Store) (now : Time)
    (short_url client_host : String) (link : Link)
    (hfind : findLink s short_url = some link)
    (hexp : ¬ link.expires_at < now) (hpw : truthy link.password = true) :
    redirect_to_url s now short_url client_host = (.challengePage short_url, s) := by
  unfold redirect_to_url
  rw [hfind]
  simp [hexp, hpw]

/-- C7 witness: the protected fixture at a pre-expiry instant. -/
theorem redirect_protected_challenge_witness :
    redirect_to_url storeP 5 "cp" "9.9.9.9" = (.challengePage "cp", storeP) :=
  redirect_protected_challenge storeP 5 "cp" "9.9.9.9" linkP (by decide) (by decide)
    (by decide)

/-- C2 counterexample: on an existing Link with no password set (the
unprotected fixture, `password` column `NULL`), `validate_password` does
not fail with Forbidden as the claim requires: line 150 hands the `NULL`
hash to werkzeug, which raises `AttributeError`, surfacing as an uncaught
HTTP 500 internal error. -/
theorem validate_password_null_hash_counterexample :
    linkB.password = none ∧
    validate_password storeB 0 "cb" "anything" =
      (.error 500 "Internal Server Error", storeB) ∧
    (validate_password storeB 0 "cb" "anything").1 ≠
      Response.error 403 "Password is incorrect." := by
  decide

/-- C2 amended: `validate_password` fails with 404 when the code is absent;
when the code is present but the link has no password set, the `NULL`
stored hash reaches werkzeug and the handler dies with an uncaught
exception (HTTP 500), not Forbidden; when a stored hash is present, it
fails with 403 exactly when that hash does not verify the supplied
password.  In every failure case the store is left unchanged: no access
log entry is appended. -/
theorem validate_password_error_cases (s : Store) (now : Time)
    (short_url password : String) :
    (findLink s short_url = none →
      validate_password s now short_url password = (.error 404 "Short URL not found.", s)) ∧
    (∀ link, findLink s short_url = some link → link.password = none →
      validate_password s now short_url password =
        (.error 500 "Internal Server Error", s)) ∧
    (∀ link stored, findLink s short_url = some link → link.password = some stored →
      (validate_password s now short_url password = (.error 403 "Password is incorrect.", s) ↔
        check_password_hash stored password = false)) := by
  refine ⟨?_, ?_, ?_⟩
  · intro h
    unfold validate_password
    rw [h]
  · intro link h hnone
    unfold validate_password
    rw [h]
    simp [hnone]
  · intro link stored h hsome
    unfold validate_password
    rw [h]
    by_cases hc : check_password_hash stored password = true
    · simp [hsome, hc]
    · have hc2 : check_password_hash stored password = false := by
        simpa using hc
      simp [hsome, hc2]

/-- C2 amended witness: a wrong password on the protected fixture yields 403
and no log entry. -/
theorem validate_password_error_cases_witness :
    validate_password storeP 5 "cp" "wrong" = (.error 403 "Password is incorrect.", storeP) :=
  ((validate_password_error_cases storeP 5 "cp" "wrong").2.2 linkP
    (generate_password_hash "secret") (by decide) (by decide)).mpr (by decide)

/-- C1 counterexample: on the analytics-form path
(`POST /analytics/{short_code}/validate`), a correct password on the
protected fixture succeeds (the analytics report is returned) yet appends no
access log entry at all: the access log stays empty, refuting that the call
appends exactly one entry with the sentinel IP. -/
theorem validate_analytics_no_log_counterexample :
    (validate_analytics_password storeP "cp" "secret" "9.9.9.9").2.accessLogs = [] ∧
    (validate_analytics_password storeP "cp" "secret" "9.9.9.9").1 =
      Response.report
        { short_url := "http://9.9.9.9:8000/cp", original_url := "http://a.com/",
          created_at := 0, expires_at := 100, access_count := 0, access_logs := [] } := by
  decide

/-- C1 amended: with the correct password on an existing Link, the
direct-validate path (`POST /{short_code}/validate`) returns the redirect
page carrying the original URL and appends exactly one access log entry
whose IP address is the fixed sentinel string, while the analytics-form
path (`POST /analytics/{short_code}/validate`) returns the analytics report
and appends no access log entry, leaving the store unchanged. -/
theorem validate_paths_success_logging (s : Store) (now : Time)
    (short_url pw client_host : String) (link : Link)
    (hfind : findLink s short_url = some link)
    (hpw : link.password = some (generate_password_hash pw)) :
    validate_password s now short_url pw =
      (.redirectPage link.original_url,
       { s with accessLogs := s.accessLogs ++
         [{ short_url := short_url, accessed_at := now,
            ip_address := "Validated Access" }] }) ∧
    (validate_analytics_password s short_url pw client_host).2 = s ∧
    (validate_analytics_password s short_url pw client_host).1 =
      .report (analyticsFor s link short_url client_host) := by
  refine ⟨?_, ?_, ?_⟩
  · unfold validate_password
    rw [hfind]
    simp [hpw, check_password_hash]
  · unfold validate_analytics_password
    rw [hfind]
    simp [hpw, check_password_hash]
  · unfold validate_analytics_password
    rw [hfind]
    simp [hpw, check_password_hash]

/-- C1 amended witness: the protected fixture with the correct password on
the direct-validate path. -/
theorem validate_paths_success_logging_witness :
    validate_password storeP 7 "cp" "secret" =
      (.redirectPage "http://a.com/",
       { urls := [linkP],
         accessLogs := [{ short_url := "cp", accessed_at := 7,
                          ip_address := "Validated Access" }] }) :=
  (validate_paths_success_logging storeP 7 "cp" "secret" "9.9.9.9" linkP (by decide)
    (by decide)).1

/-- C10: expiry is not consulted by the password-validation path nor by
analytics: on a Link whose expiry instant lies strictly in the past, the
correct password still yields the redirect page with exactly one appended
sentinel log entry, and header-authenticated analytics still yields the
report. -/
theorem expiry_not_enforced_on_validate_and_analytics (s : Store) (now : Time)
    (short_url pw client_host : String) (link : Link)
    (hfind : findLink s short_url = some link)
    (_hexpired : link.expires_at < now)
    (hpw : link.password = some (generate_password_hash pw))
    (hne : pw ≠ "") :
    (validate_password s now short_url pw).1 = .redirectPage link.original_url ∧
    (validate_password s now short_url pw).2.accessLogs =
      s.accessLogs ++ [{ short_url := short_url, accessed_at := now,
                         ip_address := "Validated Access" }] ∧
    (get_analytics s short_url (some pw) client_host).1 =
      .report (analyticsFor s link short_url client_host) := by
  refine ⟨?_, ?_, ?_⟩
  · unfold validate_password
    rw [hfind]
    simp [hpw, check_password_hash]
  · unfold validate_password
    rw [hfind]
    simp [hpw, check_password_hash]
  · unfold get_analytics
    rw [hfind]
    simp [hpw, truthy_generate_password_hash, truthy_some_ne hne, check_password_hash]

/-- C10 witness: the expired protected fixture at time 0. -/
theorem expiry_not_enforced_witness :
    (validate_password storeX 0 "cx" "secret").1 = .redirectPage "http://e.com/" ∧
    (get_analytics storeX "cx" (some "secret") "9.9.9.9").1 =
      .report (analyticsFor storeX linkX "cx" "9.9.9.9") :=
  ⟨(expiry_not_enforced_on_validate_and_analytics storeX 0 "cx" "secret" "9.9.9.9" linkX
      (by decide) (by decide) (by decide) (by decide)).1,
   (expiry_not_enforced_on_validate_and_analytics storeX 0 "cx" "secret" "9.9.9.9" linkX
      (by decide) (by decide) (by decide) (by decide)).2.2⟩

/-- C5 counterexample: at the boundary instant `now = expires_at` the code
does not fail with 410 — the comparison at src/main.py line 107 is strict
(`expires_at < now`), so the fixture link whose expiry is exactly `now = 0`
is still resolved, logged and redirected, refuting `Expired whenever
now >= expires_at`. -/
theorem redirect_expiry_boundary_counterexample :
    linkB.expires_at ≤ 0 ∧
    redirect_to_url storeB 0 "cb" "9.9.9.9" =
      (.redirect "http://b.com/",
       { urls := [linkB],
         accessLogs := [{ short_url := "cb", accessed_at := 0,
                          ip_address := "9.9.9.9" }] }) := by
  decide

/-- C5 amended: `Resolve` fails with 404 when no Link with the code exists,
and fails with 410 exactly when `expires_at < now` (strictly in the past);
a code whose expiry instant is strictly past never yields a redirect,
regardless of the password state; at `now = expires_at` the link is still
live. -/
theorem redirect_to_url_error_cases (s : Store) (now : Time)
    (short_url client_host : String) :
    (findLink s short_url = none →
      redirect_to_url s now short_url client_host =
        (.error 404 "Short URL not found.", s)) ∧
    (∀ link, findLink s short_url = some link → link.expires_at < now →
      redirect_to_url s now short_url client_host =
        (.error 410 "Short URL has expired.", s)) ∧
    (∀ link, findLink s short_url = some link → link.expires_at < now →
      ∀ url, (redirect_to_url s now short_url client_host).1 ≠ Response.redirect url) := by
  refine ⟨?_, ?_, ?_⟩
  · intro h
    unfold redirect_to_url
    rw [h]
  · intro link h hlt
    unfold redirect_to_url
    rw [h]
    simp [hlt]
  · intro link h hlt url
    unfold redirect_to_url
    rw [h]
    simp [hlt]

/-- C5 amended witness: one instant past the boundary the fixture is gone. -/
theorem redirect_to_url_error_cases_witness :
    redirect_to_url storeB 1 "cb" "9.9.9.9" =
      (.error 410 "Short URL has expired.", storeB) :=
  (redirect_to_url_error_cases storeB 1 "cb" "9.9.9.9").2.1 linkB (by decide) (by decide)

/-- C6 counterexample: supplying the empty string as the `X-Password` header
credential on the protected fixture is an incorrect credential (it verifies
against no stored hash), yet `get_analytics` returns the password challenge
page rather than 403: Python truthiness (`if not x_password`) cannot tell an
empty supplied credential from an absent one. -/
theorem get_analytics_empty_credential_counterexample :
    check_password_hash (linkP.password.getD "") "" = false ∧
    (get_analytics storeP "cp" (some "") "9.9.9.9").1 =
      Response.analyticsChallengePage "cp" := by
  decide

/-- C6 amended: on an existing Link, `get_analytics` returns the report
unconditionally when the stored password is falsy; when truthy it returns
the challenge page when the supplied credential is absent or empty, 403 when
a nonempty non-verifying credential is supplied, and otherwise the report,
whose access count is the number of access log rows for the code and whose
log sequence is those rows in insertion (chronological) order. -/
theorem get_analytics_cases (s : Store) (short_url client_host : String)
    (x_password : Option String) (link : Link)
    (hfind : findLink s short_url = some link) :
    (truthy link.password = false →
      get_analytics s short_url x_password client_host =
        (.report (analyticsFor s link short_url client_host), s)) ∧
    (truthy link.password = true → truthy x_password = false →
      get_analytics s short_url x_password client_host =
        (.analyticsChallengePage short_url, s)) ∧
    (truthy link.password = true → ∀ p, x_password = some p → p ≠ "" →
      check_password_hash (link.password.getD "") p = false →
      get_analytics s short_url x_password client_host =
        (.error 403 "Password is incorrect.", s)) ∧
    (truthy link.password = true → ∀ p, x_password = some p → p ≠ "" →
      check_password_hash (link.password.getD "") p = true →
      get_analytics s short_url x_password client_host =
        (.report (analyticsFor s link short_url client_host), s) ∧
      (analyticsFor s link short_url client_host).access_count =
        (logsFor s short_url).length ∧
      (analyticsFor s link short_url client_host).access_logs =
        (logsFor s short_url).map (fun l => (l.accessed_at, l.ip_address))) := by
  refine ⟨?_, ?_, ?_, ?_⟩
  · intro hfalse
    unfold get_analytics
    rw [hfind]
    simp [hfalse]
  · intro htrue hx
    unfold get_analytics
    rw [hfind]
    simp [htrue, hx]
  · intro htrue p hp hne hc
    subst hp
    unfold get_analytics
    rw [hfind]
    simp [htrue, truthy_some_ne hne, hc]
  · intro htrue p hp hne hc
    subst hp
    refine ⟨?_, rfl, rfl⟩
    unfold get_analytics
    rw [hfind]
    simp [htrue, truthy_some_ne hne, hc]

/-- C6 amended witness: the correct header credential on the protected
fixture yields the report. -/
theorem get_analytics_cases_witness :
    get_analytics storeP "cp" (some "secret") "9.9.9.9" =
      (.report (analyticsFor storeP linkP "cp" "9.9.9.9"), storeP) :=
  ((get_analytics_cases storeP "cp" "9.9.9.9" (some "secret") linkP (by decide)).2.2.2
    (by decide) "secret" rfl (by decide) (by decide)).1

/-- C4: shortening the same original URL twice (same caller host) returns
the same short URL both times and leaves the store of the first call
untouched: the second insert hits the `UNIQUE` constraint on the
deterministic short code and is silently skipped, surfacing no error. -/
theorem shorten_url_idempotent (s : Store) (now now2 : Time) (req req2 : URLRequest)
    (client_host : String) (hurl : req2.original_url = req.original_url) :
    (shorten_url (shorten_url s now req client_host).2 now2 req2 client_host).1 =
      (shorten_url s now req client_host).1 ∧
    (shorten_url (shorten_url s now req client_host).2 now2 req2 client_host).2 =
      (shorten_url s now req client_host).2 := by
  unfold shorten_url
  simp only [hurl]
  by_cases hany :
      s.urls.any (fun l => l.short_url == generate_short_url req.original_url) = true
  · simp [hany]
  · simp [hany, List.any_append]

/-- C4 witness: shortening the example URL twice from the empty store. -/
theorem shorten_url_idempotent_witness :
    (shorten_url (shorten_url ⟨[], []⟩ 0 ⟨"http://example.com/", 24, none⟩ "h").2 5
        ⟨"http://example.com/", 24, none⟩ "h").2 =
      (shorten_url ⟨[], []⟩ 0 ⟨"http://example.com/", 24, none⟩ "h").2 :=
  (shorten_url_idempotent ⟨[], []⟩ 0 5 ⟨"http://example.com/", 24, none⟩
    ⟨"http://example.com/", 24, none⟩ "h" rfl).2

/-- C3 counterexample: `shorten_url` performs no positivity validation of
`expiry_hours`, so a request with `expiry_hours = -1` is accepted and stores
a Link whose expiry lies one hour before its creation, violating
`expires_at > created_at`. -/
theorem shorten_url_nonpositive_expiry_counterexample :
    ((shorten_url ⟨[], []⟩ 0
        { original_url := "http://example.com/", expiry_hours := -1 } "h").2.urls.map
      (fun l => (l.created_at, l.expires_at))) = [((0 : Time), (-3600 : Time))] ∧
    ¬ ((0 : Time) < -3600) := by
  decide

/-- C3 amended: `shorten_url` sets `created_at = now` and
`expires_at = now + expiry_hours * 3600` with a default of 24 hours, but
never validates positivity; consequently every Link it newly inserts
satisfies `expires_at > created_at` exactly when the request supplied a
positive `expiry_hours` (links already in the store are retained as-is). -/
theorem shorten_url_expiry_invariant (s : Store) (now : Time) (req : URLRequest)
    (client_host : String) (hpos : 0 < req.expiry_hours) :
    ∀ l ∈ (shorten_url s now req client_host).2.urls,
      l ∈ s.urls ∨
      (l.created_at = now ∧ l.expires_at = now + req.expiry_hours * 3600 ∧
        l.created_at < l.expires_at) := by
  intro l hl
  unfold shorten_url at hl
  by_cases hany :
      s.urls.any (fun x => x.short_url == generate_short_url req.original_url) = true
  · simp only [hany, if_true] at hl
    exact Or.inl hl
  · simp only [hany, if_false, Bool.false_eq_true, List.mem_append, List.mem_singleton] at hl
    rcases hl with hmem | rfl
    · exact Or.inl hmem
    · refine Or.inr ⟨rfl, rfl, ?_⟩
      have h1 : (0 : Int) < req.expiry_hours * 3600 :=
        mul_pos hpos (by norm_num)
      simpa using lt_add_of_pos_right now h1

/-- C3 amended witness: the default 24-hour expiry applied to the example
URL from the empty store yields a link created at 0 expiring at 86400. -/
theorem shorten_url_expiry_invariant_witness :
    ({ original_url := "http://example.com/", short_url := "2a1b4024", created_at := 0,
       expires_at := 86400, password := none } : Link) ∈ ([] : List Link) ∨
    ((0 : Time) = 0 ∧ (86400 : Time) = 0 + 24 * 3600 ∧ (0 : Time) < 86400) :=
  shorten_url_expiry_invariant ⟨[], []⟩ 0 ⟨"http://example.com/", 24, none⟩ "h"
    (by decide)
    { original_url := "http://example.com/", short_url := "2a1b4024", created_at := 0,
      expires_at := 86400, password := none }
    (by decide)
